import Mathlib

/-!
Verification development for an EDI 850 → ERP integration pipeline.

Shallow embedding of the core components:
- segment tokenizer and document parser (backend/edi_parser/parser.py),
- schema mapper (backend/transformer/mapper.py),
- business-rule validator (backend/mock_erp_api/endpoints.py),
- pipeline orchestrator with retry/backoff (backend/processor/orchestrator.py).

Python floats are idealised as rationals; Python round(x, 2) is modelled as
round-half-to-even at two decimal places; machine-level float behaviour is
out of scope. Python dict results of pydantic model_dump are modelled by the
typed structures themselves (model_dump is total and injective on these
models, and every key is always present). Exceptions are modelled with
Except String, carrying the message text.
-/

deriving instance DecidableEq for Except

namespace Edi850Demo

/-- Model of CPython round-half-to-even on an exact rational. -/
def roundHalfEven (q : ℚ) : ℤ :=
  let f : ℤ := ⌊q⌋
  let frac : ℚ := q - (f : ℚ)
  if frac < 1 / 2 then f
  else if 1 / 2 < frac then f + 1
  else if f % 2 = 0 then f else f + 1

/-- Model of Python round(x, 2): round half to even at two decimals. -/
def round2 (q : ℚ) : ℚ := (roundHalfEven (q * 100) : ℚ) / 100

/-- Numeric value of a nonempty all-digit string (helper for float/int models). -/
def natOfDigits (s : String) : Nat :=
  s.toList.foldl (fun a c => 10 * a + (c.toNat - 48)) 0

/-- Model of Python float(s) on decimal string literals: optional sign,
digits with at most one decimal point. Exponent/inf/nan forms are not used by
the repository inputs and are omitted (they would parse to none here). -/
def pyFloat? (s : String) : Option ℚ :=
  let t := s.trim
  let sgn : ℚ := if t.startsWith ("-") then -1 else 1
  let u := if t.startsWith ("-") || t.startsWith ("+") then t.drop 1 else t
  match u.splitOn (".") with
  | [ip] =>
      if ip.length ≠ 0 ∧ ip.all Char.isDigit then some (sgn * (natOfDigits ip : ℚ))
      else none
  | [ip, fp] =>
      if (ip.length ≠ 0 ∨ fp.length ≠ 0) ∧ ip.all Char.isDigit ∧ fp.all Char.isDigit then
        some (sgn * ((natOfDigits ip : ℚ) + (natOfDigits fp : ℚ) / (10 : ℚ) ^ fp.length))
      else none
  | _ => none

/-- Model of Python int(s) on decimal string literals: optional sign, digits. -/
def pyInt? (s : String) : Option ℤ :=
  let t := s.trim
  let sgn : ℤ := if t.startsWith ("-") then -1 else 1
  let u := if t.startsWith ("-") || t.startsWith ("+") then t.drop 1 else t
  if u.length ≠ 0 ∧ u.all Char.isDigit then some (sgn * (natOfDigits u : ℤ)) else none

/-! Parsed EDI 850 data model (backend/edi_parser/models.py). -/

/-- ISA Interchange Control Header (models.py ISAHeader). -/
structure ISAHeader where
  authorization_info : String
  security_info : String
  sender_id : String
  receiver_id : String
  date : String
  time : String
  control_number : String
  acknowledgment_requested : String
  usage_indicator : String
deriving DecidableEq

/-- GS Functional Group Header (models.py GSHeader). -/
structure GSHeader where
  functional_id_code : String
  sender_code : String
  receiver_code : String
  date : String
  time : String
  control_number : String
  responsible_agency : String
  version : String
deriving DecidableEq

/-- BEG Beginning Segment for Purchase Order (models.py BEGSegment). -/
structure BEGSegment where
  transaction_set_purpose : String
  purchase_order_type : String
  purchase_order_number : String
  date : String
deriving DecidableEq

/-- REF Reference Identification (models.py REFSegment). -/
structure REFSegment where
  reference_qualifier : String
  reference_number : String
deriving DecidableEq

/-- N1 Name/Address loop (models.py N1Loop). -/
structure N1Loop where
  entity_identifier : String
  name : String
  identification_code_qualifier : Option String
  identification_code : Option String
deriving DecidableEq

/-- PO1 Baseline Item Data (models.py PO1LineItem). -/
structure PO1LineItem where
  line_number : String
  quantity : String
  unit_of_measure : String
  unit_price : String
  product_id_qualifier : String
  product_id : String
  description : Option String
deriving DecidableEq

/-- CTT Transaction Totals (models.py CTTSegment). -/
structure CTTSegment where
  line_item_count : String
  hash_total : Option String
deriving DecidableEq

/-- Complete parsed EDI 850 structure (models.py ParsedEDI850); the Python
control_numbers dict is modelled as an ordered association list. -/
structure ParsedEDI850 where
  isa_header : ISAHeader
  gs_header : GSHeader
  beg_segment : BEGSegment
  ref_segments : List REFSegment
  n1_loops : List N1Loop
  po1_line_items : List PO1LineItem
  ctt_segment : CTTSegment
  control_numbers : List (String × String)
deriving DecidableEq

/-! Parser (backend/edi_parser/parser.py, class EDI850Parser with delimiters
segment "~", element "*"). -/

/-- EDI850Parser._split_segments: trim the document, split on the segment
delimiter, drop blank segments, split each on the element delimiter. -/
def splitSegments (ediContent : String) : List (List String) :=
  (ediContent.trim.splitOn ("~")).filterMap (fun segStr =>
    let segStr := segStr.trim
    if segStr = ("") then none else some (segStr.splitOn ("*")))

/-- EDI850Parser._find_segment: first segment whose leading element is the id. -/
def findSegment (segments : List (List String)) (segmentId : String) : Option (List String) :=
  segments.find? (fun seg => seg.head? == some segmentId)

/-- EDI850Parser._find_all_segments: all segments whose leading element is the id. -/
def findAllSegments (segments : List (List String)) (segmentId : String) : List (List String) :=
  segments.filter (fun seg => seg.head? == some segmentId)

/-- EDI850Parser._parse_isa. -/
def parseIsa (segments : List (List String)) : Except String ISAHeader :=
  match findSegment segments ("ISA") with
  | none => .error ("ISA segment not found or incomplete")
  | some isa =>
    if isa.length < 17 then .error ("ISA segment not found or incomplete")
    else .ok ⟨(isa.getD 2 ("")).trim, (isa.getD 4 ("")).trim, (isa.getD 6 ("")).trim,
              (isa.getD 8 ("")).trim, (isa.getD 9 ("")).trim, (isa.getD 10 ("")).trim,
              (isa.getD 13 ("")).trim, (isa.getD 14 ("")).trim, (isa.getD 15 ("")).trim⟩

/-- EDI850Parser._parse_gs. -/
def parseGs (segments : List (List String)) : Except String GSHeader :=
  match findSegment segments ("GS") with
  | none => .error ("GS segment not found or incomplete")
  | some gs =>
    if gs.length < 9 then .error ("GS segment not found or incomplete")
    else .ok ⟨(gs.getD 1 ("")).trim, (gs.getD 2 ("")).trim, (gs.getD 3 ("")).trim,
              (gs.getD 4 ("")).trim, (gs.getD 5 ("")).trim, (gs.getD 6 ("")).trim,
              (gs.getD 7 ("")).trim, (gs.getD 8 ("")).trim⟩

/-- EDI850Parser._parse_beg. -/
def parseBeg (segments : List (List String)) : Except String BEGSegment :=
  match findSegment segments ("BEG") with
  | none => .error ("BEG segment not found or incomplete")
  | some beg =>
    if beg.length < 6 then .error ("BEG segment not found or incomplete")
    else .ok ⟨(beg.getD 1 ("")).trim, (beg.getD 2 ("")).trim, (beg.getD 3 ("")).trim,
              if 5 < beg.length then (beg.getD 5 ("")).trim else ("")⟩

/-- EDI850Parser._parse_ref: keep only REF occurrences with at least 3 elements. -/
def parseRef (segments : List (List String)) : List REFSegment :=
  (findAllSegments segments ("REF")).filterMap (fun ref =>
    if 3 ≤ ref.length then some ⟨(ref.getD 1 ("")).trim, (ref.getD 2 ("")).trim⟩
    else none)

/-- EDI850Parser._parse_n1: keep only N1 occurrences with at least 3 elements. -/
def parseN1 (segments : List (List String)) : List N1Loop :=
  (findAllSegments segments ("N1")).filterMap (fun n1 =>
    if 3 ≤ n1.length then
      some ⟨(n1.getD 1 ("")).trim, (n1.getD 2 ("")).trim,
            if 3 < n1.length then some ((n1.getD 3 ("")).trim) else none,
            if 4 < n1.length then some ((n1.getD 4 ("")).trim) else none⟩
    else none)

/-- EDI850Parser._parse_po1: keep only PO1 occurrences with at least 7 elements. -/
def parsePo1 (segments : List (List String)) : List PO1LineItem :=
  (findAllSegments segments ("PO1")).filterMap (fun po1 =>
    if 7 ≤ po1.length then
      some ⟨(po1.getD 1 ("")).trim, (po1.getD 2 ("")).trim, (po1.getD 3 ("")).trim,
            (po1.getD 4 ("")).trim,
            if 6 < po1.length then (po1.getD 6 ("")).trim else (""),
            if 7 < po1.length then (po1.getD 7 ("")).trim else (""),
            if 9 < po1.length then some ((po1.getD 9 ("")).trim) else none⟩
    else none)

/-- EDI850Parser._parse_ctt. -/
def parseCtt (segments : List (List String)) : Except String CTTSegment :=
  match findSegment segments ("CTT") with
  | none => .error ("CTT segment not found or incomplete")
  | some ctt =>
    if ctt.length < 2 then .error ("CTT segment not found or incomplete")
    else .ok ⟨(ctt.getD 1 ("")).trim,
              if 2 < ctt.length then some ((ctt.getD 2 ("")).trim) else none⟩

/-- EDI850Parser._parse_control_trailers: optional SE/GE/IEA trailers. -/
def parseControlTrailers (segments : List (List String)) : List (String × String) :=
  (match findSegment segments ("SE") with
   | some se =>
     if 3 ≤ se.length then
       [(("se_segment_count"), (se.getD 1 ("")).trim), (("se_control_number"), (se.getD 2 ("")).trim)]
     else []
   | none => []) ++
  (match findSegment segments ("GE") with
   | some ge =>
     if 3 ≤ ge.length then
       [(("ge_transaction_count"), (ge.getD 1 ("")).trim), (("ge_control_number"), (ge.getD 2 ("")).trim)]
     else []
   | none => []) ++
  (match findSegment segments ("IEA") with
   | some iea =>
     if 3 ≤ iea.length then
       [(("iea_group_count"), (iea.getD 1 ("")).trim), (("iea_control_number"), (iea.getD 2 ("")).trim)]
     else []
   | none => [])

/-- Body of EDI850Parser.parse: required segments raise in source order
(ISA, GS, BEG, then CTT; the repeatable REF/N1/PO1 extractions that the
source runs between BEG and CTT are total and are inlined in the result). -/
def parseCore (segments : List (List String)) : Except String ParsedEDI850 :=
  match parseIsa segments with
  | .error e => .error e
  | .ok isa =>
    match parseGs segments with
    | .error e => .error e
    | .ok gs =>
      match parseBeg segments with
      | .error e => .error e
      | .ok beg =>
        match parseCtt segments with
        | .error e => .error e
        | .ok ctt =>
          .ok ⟨isa, gs, beg, parseRef segments, parseN1 segments, parsePo1 segments,
               ctt, parseControlTrailers segments⟩

/-- EDI850Parser.parse: tokenizes, parses, and wraps any failure into one
EDIParsingError message. -/
def parse (ediContent : String) : Except String ParsedEDI850 :=
  match parseCore (splitSegments ediContent) with
  | .ok d => .ok d
  | .error e => .error (("Failed to parse EDI 850: ") ++ e)

/-! ERP schema (backend/transformer/erp_schema.py). -/

/-- ERP line item (erp_schema.py ERPLineItem). -/
structure ERPLineItem where
  line_number : ℤ
  sku : String
  description : Option String
  quantity : ℚ
  unit_price : ℚ
  unit_of_measure : String
  total_price : ℚ
deriving DecidableEq

/-- Vendor information (erp_schema.py ERPVendor). -/
structure ERPVendor where
  vendor_id : String
  vendor_name : String
deriving DecidableEq

/-- Ship-to address (erp_schema.py ERPShipTo). -/
structure ERPShipTo where
  location_id : Option String
  location_name : String
deriving DecidableEq

/-- Complete ERP purchase order payload (erp_schema.py ERPPurchaseOrder);
the reference_numbers dict is modelled as an ordered association list. -/
structure ERPPurchaseOrder where
  po_number : String
  po_date : String
  po_type : String
  vendor : ERPVendor
  ship_to : ERPShipTo
  line_items : List ERPLineItem
  total_amount : ℚ
  total_lines : ℤ
  reference_numbers : Option (List (String × String))
deriving DecidableEq

/-! Schema mapper (backend/transformer/mapper.py, class ERPMapper). -/

/-- Modelled pydantic message for ERPVendor built with vendor_id = None
(vendor_id is a required str, so pydantic validation raises). -/
def vendorIdNoneMsg : String :=
  "1 validation error for ERPVendor: vendor_id must be a valid string, got None"

/-- ERPMapper._extract_vendor: first N1 loop with entity code VN wins; dict
get with default UNKNOWN applies only when the key is missing, and the key is
always present after model_dump, so a present-but-None identification_code is
passed to ERPVendor and fails pydantic validation. -/
def extractVendor : List N1Loop → Except String ERPVendor
  | [] => .ok ⟨("UNKNOWN"), ("Unknown Vendor")⟩
  | n1 :: rest =>
    if n1.entity_identifier = ("VN") then
      match n1.identification_code with
      | some c => .ok ⟨c, n1.name⟩
      | none => .error vendorIdNoneMsg
    else extractVendor rest

/-- ERPMapper._extract_ship_to: first N1 loop with entity code ST wins;
location_id is Optional so a None identification_code is accepted. -/
def extractShipTo : List N1Loop → ERPShipTo
  | [] => ⟨none, ("Unknown Location")⟩
  | n1 :: rest =>
    if n1.entity_identifier = ("ST") then ⟨n1.identification_code, n1.name⟩
    else extractShipTo rest

/-- ERPMapper._transform_line_items: parse quantity and unit price as floats,
line_number as int, compute total_price = round(quantity * unit_price, 2). -/
def transformLineItems : List PO1LineItem → Except String (List ERPLineItem)
  | [] => .ok []
  | po1 :: rest =>
    match pyFloat? po1.quantity with
    | none => .error (("could not convert string to float: ") ++ po1.quantity)
    | some q =>
      match pyFloat? po1.unit_price with
      | none => .error (("could not convert string to float: ") ++ po1.unit_price)
      | some up =>
        match pyInt? po1.line_number with
        | none => .error (("invalid literal for int() with base 10: ") ++ po1.line_number)
        | some ln =>
          match transformLineItems rest with
          | .error e => .error e
          | .ok tail =>
            .ok (⟨ln, po1.product_id, po1.description, q, up, po1.unit_of_measure,
                  round2 (q * up)⟩ :: tail)

/-- ERPMapper._calculate_total_amount: round(sum of line totals, 2). -/
def calculateTotalAmount (lineItems : List ERPLineItem) : ℚ :=
  round2 ((lineItems.map (fun item => item.total_price)).sum)

/-- ERPMapper.PO_TYPE_MAP. -/
def PO_TYPE_MAP : List (String × String) :=
  [(("NE"), ("New Order")), (("RE"), ("Reorder")), (("SA"), ("Stand Alone")),
   (("CN"), ("Confirmation")), (("RL"), ("Release"))]

/-- ERPMapper._map_po_type: unknown codes pass through unchanged. -/
def mapPoType (poTypeCode : String) : String :=
  (List.lookup poTypeCode PO_TYPE_MAP).getD poTypeCode

/-- ERPMapper._format_date: YYYYMMDD becomes YYYY-MM-DD, other lengths pass through. -/
def formatDate (ediDate : String) : String :=
  if ediDate.length = 8 then
    (ediDate.take 4) ++ ("-") ++ ((ediDate.drop 4).take 2) ++ ("-") ++ ((ediDate.drop 6).take 2)
  else ediDate

/-- Python dict assignment d[k] = v on an insertion-ordered association list. -/
def dictInsert (d : List (String × String)) (k v : String) : List (String × String) :=
  if d.any (fun p => p.1 == k) then d.map (fun p => if p.1 == k then (k, v) else p)
  else d ++ [(k, v)]

/-- Qualifier code → readable name table inside ERPMapper._build_reference_numbers. -/
def qualifierMap : List (String × String) :=
  [(("DP"), ("department")), (("CO"), ("customer_order")), (("CR"), ("customer_reference")),
   (("PO"), ("previous_po")), (("VN"), ("vendor_order"))]

/-- ERPMapper._build_reference_numbers: empty dict becomes None. -/
def buildReferenceNumbers (refSegments : List REFSegment) : Option (List (String × String)) :=
  let d := refSegments.foldl (fun acc ref =>
    let key := (List.lookup ref.reference_qualifier qualifierMap).getD ref.reference_qualifier.toLower
    dictInsert acc key ref.reference_number) []
  if d = [] then none else some d

/-- Body of ERPMapper.transform, in source evaluation order: vendor, ship-to,
line items, total, then the header fields (extract_ship_to and the header
lookups are total and are inlined in the result). -/
def transformCore (parsedEdi : ParsedEDI850) : Except String ERPPurchaseOrder :=
  match extractVendor parsedEdi.n1_loops with
  | .error e => .error e
  | .ok vendor =>
    match transformLineItems parsedEdi.po1_line_items with
    | .error e => .error e
    | .ok lineItems =>
      .ok ⟨parsedEdi.beg_segment.purchase_order_number,
           formatDate parsedEdi.beg_segment.date,
           mapPoType parsedEdi.beg_segment.purchase_order_type,
           vendor, extractShipTo parsedEdi.n1_loops, lineItems,
           calculateTotalAmount lineItems, (lineItems.length : ℤ),
           buildReferenceNumbers parsedEdi.ref_segments⟩

/-- ERPMapper.transform: wraps any failure into one TransformationError message. -/
def transform (parsedEdi : ParsedEDI850) : Except String ERPPurchaseOrder :=
  match transformCore parsedEdi with
  | .ok p => .ok p
  | .error e => .error (("Failed to transform EDI to ERP schema: ") ++ e)

/-! Business-rule validator (backend/mock_erp_api/endpoints.py
_validate_business_rules). -/

/-- Rule 4 of _validate_business_rules: per-line checks, 1-indexed messages
(Python enumerate(payload.line_items, 1)). -/
def lineItemErrorsFrom : Nat → List ERPLineItem → List String
  | _, [] => []
  | idx, item :: rest =>
    (if item.quantity ≤ 0 then [("Line ") ++ toString idx ++ (": Quantity must be greater than zero")] else []) ++
    (if item.unit_price < 0 then [("Line ") ++ toString idx ++ (": Unit price cannot be negative")] else []) ++
    (if item.total_price < 0 then [("Line ") ++ toString idx ++ (": Total price cannot be negative")] else []) ++
    lineItemErrorsFrom (idx + 1) rest

/-- endpoints.py _validate_business_rules: the seven rules, in fixed order,
all checked unconditionally; empty list means valid. -/
def validateBusinessRules (payload : ERPPurchaseOrder) : List String :=
  (if payload.total_amount ≤ 0 then [("Total amount must be greater than zero")] else []) ++
  (if payload.total_lines < 1 then [("Purchase order must contain at least one line item")] else []) ++
  (if (payload.line_items.length : ℤ) ≠ payload.total_lines then
    [("Line items count mismatch: expected ") ++ toString payload.total_lines ++
     (", got ") ++ toString payload.line_items.length] else []) ++
  lineItemErrorsFrom 1 payload.line_items ++
  (if payload.vendor.vendor_name = ("") ∨ payload.vendor.vendor_name = ("Unknown Vendor") then
    [("Valid vendor information is required")] else []) ++
  (if payload.ship_to.location_name = ("") ∨ payload.ship_to.location_name = ("Unknown Location") then
    [("Valid ship-to location is required")] else []) ++
  (if payload.po_number = ("") ∨ payload.po_number.trim = ("") then
    [("Purchase order number is required")] else [])

/-! Pipeline orchestrator (backend/processor/orchestrator.py,
class IntegrationOrchestrator). The external ERP call is an oracle
call : Nat → Except String R giving the outcome of each attempt number;
time.sleep is modelled by recording the waited delays in order. -/

/-- Status of one pipeline step: pending, success, or failed. -/
inductive StepStatus
  | pending
  | success
  | failed
deriving DecidableEq

/-- One step entry of the execution record (status, data, error keys). -/
structure StepRec (α : Type) where
  status : StepStatus
  data : Option α
  error : Option String
deriving DecidableEq

/-- Validate step entry (status, errors keys; error may be added by the
generic exception handler). -/
structure ValidateRec where
  status : StepStatus
  errors : Option (List String)
  error : Option String
deriving DecidableEq

/-- Submit step entry (status, data, error, attempts keys). -/
structure SubmitRec (R : Type) where
  status : StepStatus
  data : Option R
  error : Option String
  attempts : Nat
deriving DecidableEq

/-- Execution record of one pipeline run (orchestrator result dict), with the
observable trace of backoff waits. Job id and timestamps are opaque
environment values and are not modelled. -/
structure RunResult (R : Type) where
  success : Bool
  parse : StepRec ParsedEDI850
  transform : StepRec ERPPurchaseOrder
  validate : ValidateRec
  post_to_erp : SubmitRec R
  submitSleeps : List ℚ
deriving DecidableEq

/-- Outcome of _post_to_erp_with_retry: final result, recorded attempt
counter, and the backoff delays waited, in order. -/
structure RetryOutcome (R : Type) where
  result : Except String R
  attempts : Nat
  sleeps : List ℚ

/-- Exhaustion message of _post_to_erp_with_retry (str(None) is the Python
rendering when no attempt ever ran). -/
def exhaustMsg (maxRetries : Nat) (lastError : Option String) : String :=
  ("All ") ++ toString maxRetries ++ (" retry attempts failed. Last error: ") ++
  lastError.getD ("None")

/-- Loop of _post_to_erp_with_retry. fuel is the number of attempts still
allowed (maxRetries - attempt + 1); sleeps accumulates waited delays in
reverse. recorded tracks the attempts counter in the result dict, mutated at
the top of each iteration. -/
def retryAux (call : Nat → Except String R) (maxRetries : Nat) :
    Nat → Nat → ℚ → List ℚ → Option String → Nat → RetryOutcome R
  | 0, _, _, sleeps, lastErr, recorded =>
      ⟨.error (exhaustMsg maxRetries lastErr), recorded, sleeps.reverse⟩
  | fuel + 1, attempt, delay, sleeps, _, _ =>
      match call attempt with
      | .ok r => ⟨.ok r, attempt, sleeps.reverse⟩
      | .error e =>
          if fuel = 0 then ⟨.error (exhaustMsg maxRetries (some e)), attempt, sleeps.reverse⟩
          else retryAux call maxRetries fuel (attempt + 1) (2 * delay) (delay :: sleeps)
                 (some e) attempt

/-- IntegrationOrchestrator._post_to_erp_with_retry: attempts numbered from 1,
at most maxRetries of them, exponential backoff doubling from retryDelay. -/
def postToErpWithRetry (call : Nat → Except String R) (maxRetries : Nat)
    (retryDelay : ℚ) : RetryOutcome R :=
  retryAux call maxRetries maxRetries 1 retryDelay [] none 0

/-- Generic exception handler of process_edi_file: mark the first step still
pending (in dict insertion order parse, transform, validate, post_to_erp) as
failed with the fault text; if no step is pending, nothing changes. -/
def markFirstPending (r : RunResult R) (msg : String) : RunResult R :=
  if r.parse.status = .pending then
    { r with parse := { r.parse with status := .failed, error := some msg } }
  else if r.transform.status = .pending then
    { r with transform := { r.transform with status := .failed, error := some msg } }
  else if r.validate.status = .pending then
    { r with validate := { r.validate with status := .failed, error := some msg } }
  else if r.post_to_erp.status = .pending then
    { r with post_to_erp := { r.post_to_erp with status := .failed, error := some msg } }
  else r

/-- Initial execution record: all steps pending, attempts 0, success false. -/
def initRunResult (R : Type) : RunResult R :=
  ⟨false, ⟨.pending, none, none⟩, ⟨.pending, none, none⟩, ⟨.pending, none, none⟩,
   ⟨.pending, none, none, 0⟩, []⟩

/-- IntegrationOrchestrator.process_edi_file: parse → transform → validate →
submit-with-retry, each stage recorded; stage failures stop the pipeline; the
retry loop raises on exhaustion and the generic handler then runs. -/
def processEdiFile (ediContent : String) (call : Nat → Except String R)
    (maxRetries : Nat) (retryDelay : ℚ) : RunResult R :=
  let r0 := initRunResult R
  match parse ediContent with
  | .error e => { r0 with parse := ⟨.failed, none, some e⟩ }
  | .ok parsedData =>
    let r1 := { r0 with parse := ⟨.success, some parsedData, none⟩ }
    match transform parsedData with
    | .error e => { r1 with transform := ⟨.failed, none, some e⟩ }
    | .ok erpPayload =>
      let r2 := { r1 with transform := ⟨.success, some erpPayload, none⟩ }
      let validationResult := validateBusinessRules erpPayload
      if validationResult ≠ [] then
        { r2 with validate := ⟨.failed, some validationResult, none⟩ }
      else
        let r3 := { r2 with validate := ⟨.success, none, none⟩ }
        let outcome := postToErpWithRetry call maxRetries retryDelay
        match outcome.result with
        | .ok response =>
          { r3 with post_to_erp := ⟨.success, some response, none, outcome.attempts⟩,
                    success := true, submitSleeps := outcome.sleeps }
        | .error msg =>
          markFirstPending
            { r3 with post_to_erp := ⟨.failed, none, some msg, outcome.attempts⟩,
                      submitSleeps := outcome.sleeps } msg

/-! Derived definitions used by the theorem statements, and concrete
documents used by the witnesses. -/

/-- Predicate: result of a computation that may raise carries a value. -/
def isOkE {α : Type} : Except String α → Bool
  | .ok _ => true
  | .error _ => false

/-- Check of one required segment: present with at least the minimum element
count (the negation of the `not seg or len(seg) < minLen` guard). -/
def okRequired (segments : List (List String)) (segmentId : String) (minLen : Nat) : Bool :=
  match findSegment segments segmentId with
  | some seg => decide (minLen ≤ seg.length)
  | none => false

/-- Required-segment check for the interchange header. -/
def okISA (segments : List (List String)) : Bool := okRequired segments ("ISA") 17

/-- Required-segment check for the group header. -/
def okGS (segments : List (List String)) : Bool := okRequired segments ("GS") 9

/-- Required-segment check for the PO header. -/
def okBEG (segments : List (List String)) : Bool := okRequired segments ("BEG") 6

/-- Required-segment check for the totals segment. -/
def okCTT (segments : List (List String)) : Bool := okRequired segments ("CTT") 2

/-- Backoff delays waited by the retry loop: delta, 2 delta, 4 delta, ... -/
def geomDelays (delta : ℚ) : Nat → List ℚ
  | 0 => []
  | n + 1 => delta :: geomDelays (2 * delta) n

/-- Valid EDI 850 document whose single PO1 line has exactly 7 elements, so
its product id (SKU) position is absent. -/
def emptySkuDoc : String :=
  "ISA*0*A*0*S*Z*S*Z*R*D*T*U*4*1*0*P*:~GS*PO*S*R*D*T*1*X*4~BEG*00*NE*P1**20240115~N1*VN*AC*92*V1~N1*ST*WH*92*W1~PO1*1*10*EA*2.5**PE~CTT*1~"

/-- Parsed form of emptySkuDoc, written out. -/
def emptySkuParsed : ParsedEDI850 :=
  ⟨⟨("A"), ("S"), ("S"), ("R"), ("D"), ("T"), ("1"), ("0"), ("P")⟩,
   ⟨("PO"), ("S"), ("R"), ("D"), ("T"), ("1"), ("X"), ("4")⟩,
   ⟨("00"), ("NE"), ("P1"), ("20240115")⟩,
   [],
   [⟨("VN"), ("AC"), some ("92"), some ("V1")⟩,
    ⟨("ST"), ("WH"), some ("92"), some ("W1")⟩],
   [⟨("1"), ("10"), ("EA"), ("2.5"), ("PE"), (""), none⟩],
   ⟨("1"), none⟩, []⟩

/-- Mapped form of emptySkuParsed, written out: the empty SKU passes through. -/
def emptySkuPayload : ERPPurchaseOrder :=
  ⟨("P1"), ("2024-01-15"), ("New Order"), ⟨("V1"), ("AC")⟩, ⟨some ("W1"), ("WH")⟩,
   [⟨1, (""), none, 10, 5 / 2, ("EA"), 25⟩], 25, 1, none⟩

/-- Document whose interchange and group headers are fine but which has no
BEG purchase-order header. -/
def noBegDoc : String :=
  "ISA*0*A*0*S*Z*S*Z*R*D*T*U*4*1*0*P*:~GS*PO*S*R*D*T*1*X*4~CTT*1~"

/-- Valid document that also carries one REF with 2 elements, one N1 with 2
elements, and one PO1 with 5 elements: all three short occurrences must be
skipped silently. -/
def shortRepeatDoc : String :=
  "ISA*0*A*0*S*Z*S*Z*R*D*T*U*4*1*0*P*:~GS*PO*S*R*D*T*1*X*4~BEG*00*NE*P7**20240115~REF*XX~REF*DP*D7~N1*BY~N1*VN*AC*92*V1~PO1*1*5*EA*2~PO1*2*4*EA*1.5**PE*S2~CTT*2~"

/-- Parsed form of shortRepeatDoc, written out: the short occurrences are gone. -/
def shortRepeatParsed : ParsedEDI850 :=
  ⟨⟨("A"), ("S"), ("S"), ("R"), ("D"), ("T"), ("1"), ("0"), ("P")⟩,
   ⟨("PO"), ("S"), ("R"), ("D"), ("T"), ("1"), ("X"), ("4")⟩,
   ⟨("00"), ("NE"), ("P7"), ("20240115")⟩,
   [⟨("DP"), ("D7")⟩],
   [⟨("VN"), ("AC"), some ("92"), some ("V1")⟩],
   [⟨("2"), ("4"), ("EA"), ("1.5"), ("PE"), ("S2"), none⟩],
   ⟨("2"), none⟩, []⟩

/-- Document whose first (and only) vendor N1 loop has exactly 3 elements, so
the parsed identification_code is None. -/
def vendorNoIdDoc : String :=
  "ISA*0*A*0*S*Z*S*Z*R*D*T*U*4*1*0*P*:~GS*PO*S*R*D*T*1*X*4~BEG*00*NE*P5**20240115~N1*VN*AV~PO1*1*2*EA*3.5**PE~CTT*1~"

/-- Parsed form of vendorNoIdDoc, written out. -/
def vendorNoIdParsed : ParsedEDI850 :=
  ⟨⟨("A"), ("S"), ("S"), ("R"), ("D"), ("T"), ("1"), ("0"), ("P")⟩,
   ⟨("PO"), ("S"), ("R"), ("D"), ("T"), ("1"), ("X"), ("4")⟩,
   ⟨("00"), ("NE"), ("P5"), ("20240115")⟩,
   [],
   [⟨("VN"), ("AV"), none, none⟩],
   [⟨("1"), ("2"), ("EA"), ("3.5"), ("PE"), (""), none⟩],
   ⟨("1"), none⟩, []⟩

/-- Small parsed document used to witness the computed-totals claim. -/
def totalsDoc : ParsedEDI850 :=
  ⟨⟨("A"), ("S"), ("SND"), ("RCV"), ("240101"), ("1200"), ("1"), ("0"), ("P")⟩,
   ⟨("PO"), ("S"), ("R"), ("20240101"), ("1200"), ("1"), ("X"), ("004010")⟩,
   ⟨("00"), ("NE"), ("PO9"), ("20240115")⟩,
   [],
   [⟨("VN"), ("Acme"), some ("92"), some ("V1")⟩],
   [⟨("1"), ("3"), ("EA"), ("1.25"), ("PE"), ("SKU1"), none⟩,
    ⟨("2"), ("2"), ("EA"), ("0.4"), ("PE"), ("SKU2"), none⟩],
   ⟨("99"), none⟩, []⟩

/-- Mapped form of totalsDoc, written out. -/
def totalsPayload : ERPPurchaseOrder :=
  ⟨("PO9"), ("2024-01-15"), ("New Order"), ⟨("V1"), ("Acme")⟩, ⟨none, ("Unknown Location")⟩,
   [⟨1, ("SKU1"), none, 3, 5 / 4, ("EA"), 15 / 4⟩,
    ⟨2, ("SKU2"), none, 2, 2 / 5, ("EA"), 4 / 5⟩],
   91 / 20, 2, none⟩

/-- External call oracle that fails on attempts 1 and 2 and succeeds on 3. -/
def callThird : Nat → Except String Nat :=
  fun k => if k < 3 then .error (("boom ") ++ toString k) else .ok 7

/-- External call oracle that fails on every attempt. -/
def callDown : Nat → Except String Nat :=
  fun k => .error (("down ") ++ toString k)

/-- Error text of callDown at each attempt. -/
def downMsg : Nat → String := fun k => ("down ") ++ toString k

/-- Payload with total_amount = 0 that also breaks other rules (no line
items), used to refute the unqualified exactly-one-violation claim. -/
def zeroTotalEmptyPayload : ERPPurchaseOrder :=
  ⟨("PO-E"), ("2024-01-15"), ("New Order"), ⟨("V1"), ("Acme")⟩, ⟨some ("W1"), ("Main")⟩,
   [], 0, 0, none⟩

/-- Payload with total_amount = 0 that satisfies every other rule: one line
of quantity 1 at unit price 0. -/
def zeroTotalOnlyPayload : ERPPurchaseOrder :=
  ⟨("PO-1"), ("2024-01-15"), ("New Order"), ⟨("V1"), ("Acme")⟩, ⟨some ("W1"), ("Main")⟩,
   [⟨1, ("SKU1"), none, 1, 0, ("EA"), 0⟩], 0, 1, none⟩

/-! Helper lemmas (shared; not claim theorems). -/

lemma geomDelays_length : ∀ (n : Nat) (delta : ℚ), (geomDelays delta n).length = n := by
  intro n
  induction n with
  | zero => intro delta; rfl
  | succ n ih => intro delta; simp [geomDelays, ih]

lemma geomDelays_getD : ∀ (n i : Nat) (delta : ℚ), i < n →
    (geomDelays delta n).getD i 0 = delta * 2 ^ i := by
  intro n
  induction n with
  | zero => intro i delta h; exact absurd h (Nat.not_lt_zero i)
  | succ n ih =>
    intro i delta h
    cases i with
    | zero => simp [geomDelays]
    | succ i =>
      simp only [geomDelays, List.getD_cons_succ]
      rw [ih i (2 * delta) (by omega)]
      ring

lemma retryAux_success {R : Type} (call : Nat → Except String R) (maxRetries : Nat) (r : R) :
    ∀ (n a : Nat) (delta : ℚ) (s : List ℚ) (last : Option String) (rec : Nat),
      1 ≤ a → a + n ≤ maxRetries →
      (∀ j, a ≤ j → j < a + n → ∃ e, call j = .error e) →
      call (a + n) = .ok r →
      retryAux call maxRetries (maxRetries - a + 1) a delta s last rec =
        ⟨.ok r, a + n, s.reverse ++ geomDelays delta n⟩ := by
  intro n
  induction n with
  | zero =>
    intro a delta s last rec ha hm hfail hok
    rw [Nat.add_zero] at hok ⊢
    simp [retryAux, hok, geomDelays]
  | succ n ih =>
    intro a delta s last rec ha hm hfail hok
    obtain ⟨e, he⟩ := hfail a (Nat.le_refl a) (by omega)
    have hne : ¬ (maxRetries - a = 0) := by omega
    simp only [retryAux, he, if_neg hne]
    rw [show maxRetries - a = maxRetries - (a + 1) + 1 by omega]
    rw [ih (a + 1) (2 * delta) (delta :: s) (some e) a (by omega) (by omega)
      (fun j hj1 hj2 => hfail j (by omega) (by omega))
      (by rw [show a + 1 + n = a + (n + 1) by omega]; exact hok)]
    rw [show a + 1 + n = a + (n + 1) by omega, List.reverse_cons, List.append_assoc]
    rfl

lemma retryAux_fail {R : Type} (call : Nat → Except String R) (maxRetries : Nat)
    (errs : Nat → String) :
    ∀ (n a : Nat) (delta : ℚ) (s : List ℚ) (last : Option String) (rec : Nat),
      1 ≤ a → a + n = maxRetries →
      (∀ j, a ≤ j → j ≤ maxRetries → call j = .error (errs j)) →
      retryAux call maxRetries (maxRetries - a + 1) a delta s last rec =
        ⟨.error (exhaustMsg maxRetries (some (errs maxRetries))), maxRetries,
         s.reverse ++ geomDelays delta n⟩ := by
  intro n
  induction n with
  | zero =>
    intro a delta s last rec ha hm hfail
    have haeq : a = maxRetries := by omega
    subst haeq
    have he := hfail a (Nat.le_refl a) (Nat.le_refl a)
    simp [retryAux, Nat.sub_self, he, geomDelays]
  | succ n ih =>
    intro a delta s last rec ha hm hfail
    have he := hfail a (Nat.le_refl a) (by omega)
    have hne : ¬ (maxRetries - a = 0) := by omega
    simp only [retryAux, he, if_neg hne]
    rw [show maxRetries - a = maxRetries - (a + 1) + 1 by omega]
    rw [ih (a + 1) (2 * delta) (delta :: s) (some (errs a)) a (by omega) (by omega)
      (fun j hj1 hj2 => hfail j (by omega) hj2)]
    rw [List.reverse_cons, List.append_assoc]
    rfl

lemma postToErp_success {R : Type} (call : Nat → Except String R) (maxRetries k : Nat)
    (delta : ℚ) (r : R) (hk1 : 1 ≤ k) (hkm : k ≤ maxRetries)
    (hfail : ∀ j, 1 ≤ j → j < k → ∃ e, call j = .error e)
    (hok : call k = .ok r) :
    postToErpWithRetry call maxRetries delta = ⟨.ok r, k, geomDelays delta (k - 1)⟩ := by
  have h := retryAux_success call maxRetries r (k - 1) 1 delta [] none 0 (Nat.le_refl 1)
    (by omega) (fun j hj1 hj2 => hfail j hj1 (by omega))
    (by rw [show 1 + (k - 1) = k by omega]; exact hok)
  rw [show 1 + (k - 1) = k by omega] at h
  rw [show maxRetries - 1 + 1 = maxRetries by omega] at h
  unfold postToErpWithRetry
  simpa using h

lemma postToErp_fail {R : Type} (call : Nat → Except String R) (maxRetries : Nat)
    (delta : ℚ) (errs : Nat → String) (hmax : 1 ≤ maxRetries)
    (hfail : ∀ j, 1 ≤ j → j ≤ maxRetries → call j = .error (errs j)) :
    postToErpWithRetry call maxRetries delta =
      ⟨.error (exhaustMsg maxRetries (some (errs maxRetries))), maxRetries,
       geomDelays delta (maxRetries - 1)⟩ := by
  have h := retryAux_fail call maxRetries errs (maxRetries - 1) 1 delta [] none 0
    (Nat.le_refl 1) (by omega) (fun j hj1 hj2 => hfail j hj1 hj2)
  rw [show maxRetries - 1 + 1 = maxRetries by omega] at h
  unfold postToErpWithRetry
  simpa using h

lemma parseIsa_bad {segs : List (List String)} (h : okISA segs = false) :
    parseIsa segs = .error ("ISA segment not found or incomplete") := by
  unfold okISA okRequired at h
  unfold parseIsa
  revert h
  cases hf : findSegment segs ("ISA") with
  | none => intro h; rfl
  | some isa =>
    intro h
    simp only [decide_eq_false_iff_not, Nat.not_le] at h
    simp [h]

lemma parseIsa_ok {segs : List (List String)} (h : okISA segs = true) :
    ∃ hd, parseIsa segs = .ok hd := by
  unfold okISA okRequired at h
  unfold parseIsa
  revert h
  cases hf : findSegment segs ("ISA") with
  | none => intro h; exact absurd h (by simp)
  | some isa =>
    intro h
    simp only [decide_eq_true_eq] at h
    simp [Nat.not_lt.mpr h]

lemma parseGs_bad {segs : List (List String)} (h : okGS segs = false) :
    parseGs segs = .error ("GS segment not found or incomplete") := by
  unfold okGS okRequired at h
  unfold parseGs
  revert h
  cases hf : findSegment segs ("GS") with
  | none => intro h; rfl
  | some gs =>
    intro h
    simp only [decide_eq_false_iff_not, Nat.not_le] at h
    simp [h]

lemma parseGs_ok {segs : List (List String)} (h : okGS segs = true) :
    ∃ hd, parseGs segs = .ok hd := by
  unfold okGS okRequired at h
  unfold parseGs
  revert h
  cases hf : findSegment segs ("GS") with
  | none => intro h; exact absurd h (by simp)
  | some gs =>
    intro h
    simp only [decide_eq_true_eq] at h
    simp [Nat.not_lt.mpr h]

lemma parseBeg_bad {segs : List (List String)} (h : okBEG segs = false) :
    parseBeg segs = .error ("BEG segment not found or incomplete") := by
  unfold okBEG okRequired at h
  unfold parseBeg
  revert h
  cases hf : findSegment segs ("BEG") with
  | none => intro h; rfl
  | some beg =>
    intro h
    simp only [decide_eq_false_iff_not, Nat.not_le] at h
    simp [h]

lemma parseBeg_ok {segs : List (List String)} (h : okBEG segs = true) :
    ∃ hd, parseBeg segs = .ok hd := by
  unfold okBEG okRequired at h
  unfold parseBeg
  revert h
  cases hf : findSegment segs ("BEG") with
  | none => intro h; exact absurd h (by simp)
  | some beg =>
    intro h
    simp only [decide_eq_true_eq] at h
    simp [Nat.not_lt.mpr h]

lemma parseCtt_bad {segs : List (List String)} (h : okCTT segs = false) :
    parseCtt segs = .error ("CTT segment not found or incomplete") := by
  unfold okCTT okRequired at h
  unfold parseCtt
  revert h
  cases hf : findSegment segs ("CTT") with
  | none => intro h; rfl
  | some ctt =>
    intro h
    simp only [decide_eq_false_iff_not, Nat.not_le] at h
    simp [h]

lemma parseCtt_ok {segs : List (List String)} (h : okCTT segs = true) :
    ∃ hd, parseCtt segs = .ok hd := by
  unfold okCTT okRequired at h
  unfold parseCtt
  revert h
  cases hf : findSegment segs ("CTT") with
  | none => intro h; exact absurd h (by simp)
  | some ctt =>
    intro h
    simp only [decide_eq_true_eq] at h
    simp [Nat.not_lt.mpr h]

lemma parseCore_isa_bad {segs : List (List String)} (h : okISA segs = false) :
    parseCore segs = .error ("ISA segment not found or incomplete") := by
  simp [parseCore, parseIsa_bad h]

lemma parseCore_gs_bad {segs : List (List String)} (h1 : okISA segs = true)
    (h : okGS segs = false) :
    parseCore segs = .error ("GS segment not found or incomplete") := by
  obtain ⟨isa, hi⟩ := parseIsa_ok h1
  simp [parseCore, hi, parseGs_bad h]

lemma parseCore_beg_bad {segs : List (List String)} (h1 : okISA segs = true)
    (h2 : okGS segs = true) (h : okBEG segs = false) :
    parseCore segs = .error ("BEG segment not found or incomplete") := by
  obtain ⟨isa, hi⟩ := parseIsa_ok h1
  obtain ⟨gs, hg⟩ := parseGs_ok h2
  simp [parseCore, hi, hg, parseBeg_bad h]

lemma parseCore_ctt_bad {segs : List (List String)} (h1 : okISA segs = true)
    (h2 : okGS segs = true) (h3 : okBEG segs = true) (h : okCTT segs = false) :
    parseCore segs = .error ("CTT segment not found or incomplete") := by
  obtain ⟨isa, hi⟩ := parseIsa_ok h1
  obtain ⟨gs, hg⟩ := parseGs_ok h2
  obtain ⟨beg, hb⟩ := parseBeg_ok h3
  simp [parseCore, hi, hg, hb, parseCtt_bad h]

lemma parseCore_all_ok {segs : List (List String)} (h1 : okISA segs = true)
    (h2 : okGS segs = true) (h3 : okBEG segs = true) (h4 : okCTT segs = true) :
    ∃ d, parseCore segs = .ok d := by
  obtain ⟨isa, hi⟩ := parseIsa_ok h1
  obtain ⟨gs, hg⟩ := parseGs_ok h2
  obtain ⟨beg, hb⟩ := parseBeg_ok h3
  obtain ⟨ctt, hc⟩ := parseCtt_ok h4
  simp [parseCore, hi, hg, hb, hc]

lemma parse_ok_core {s : String} {d : ParsedEDI850} (h : parse s = .ok d) :
    parseCore (splitSegments s) = .ok d := by
  unfold parse at h
  revert h
  cases hc : parseCore (splitSegments s) with
  | ok d0 => intro h; cases h; rfl
  | error e => intro h; simp at h

lemma parseCore_ok_fields {segs : List (List String)} {d : ParsedEDI850}
    (h : parseCore segs = .ok d) :
    d.ref_segments = parseRef segs ∧ d.n1_loops = parseN1 segs ∧
    d.po1_line_items = parsePo1 segs := by
  unfold parseCore at h
  revert h
  cases hi : parseIsa segs with
  | error e => intro h; simp at h
  | ok isa =>
    cases hg : parseGs segs with
    | error e => intro h; simp at h
    | ok gs =>
      cases hb : parseBeg segs with
      | error e => intro h; simp at h
      | ok beg =>
        cases hc : parseCtt segs with
        | error e => intro h; simp at h
        | ok ctt =>
          intro h
          cases h
          exact ⟨rfl, rfl, rfl⟩

lemma filter_filterMap_if {α β : Type} (p : α → Bool) (q : α → Prop) [DecidablePred q]
    (f : α → β) (l : List α) :
    (l.filter p).filterMap (fun x => if q x then some (f x) else none) =
      (l.filter (fun x => p x && decide (q x))).map f := by
  induction l with
  | nil => rfl
  | cons a t ih =>
    by_cases hp : p a = true
    · by_cases hq : q a
      · simp [List.filter_cons, hp, hq, List.filterMap_cons, ih]
      · simp [List.filter_cons, hp, hq, List.filterMap_cons, ih]
    · simp [List.filter_cons, hp, ih]

lemma extractVendor_find (loops : List N1Loop) :
    extractVendor loops =
      match loops.find? (fun n1 => n1.entity_identifier == ("VN")) with
      | none => .ok ⟨("UNKNOWN"), ("Unknown Vendor")⟩
      | some v =>
        match v.identification_code with
        | some c => .ok ⟨c, v.name⟩
        | none => .error vendorIdNoneMsg := by
  induction loops with
  | nil => rfl
  | cons n1 rest ih =>
    by_cases h : n1.entity_identifier = ("VN")
    · simp [extractVendor, h, List.find?_cons_of_pos]
    · rw [List.find?_cons_of_neg _ (by simp [h])]
      simp [extractVendor, h, ih]

lemma transform_ok_core {doc : ParsedEDI850} {p : ERPPurchaseOrder}
    (h : transform doc = .ok p) : transformCore doc = .ok p := by
  unfold transform at h
  revert h
  cases hc : transformCore doc with
  | ok p0 => intro h; cases h; rfl
  | error e => intro h; simp at h

lemma transformCore_ok_fields {doc : ParsedEDI850} {p : ERPPurchaseOrder}
    (h : transformCore doc = .ok p) :
    ∃ items, transformLineItems doc.po1_line_items = .ok items ∧
      p.line_items = items ∧ p.total_amount = calculateTotalAmount items ∧
      p.total_lines = (items.length : ℤ) := by
  unfold transformCore at h
  revert h
  cases hv : extractVendor doc.n1_loops with
  | error e => intro h; simp at h
  | ok v =>
    cases hl : transformLineItems doc.po1_line_items with
    | error e => intro h; simp at h
    | ok items =>
      intro h
      cases h
      exact ⟨items, rfl, rfl, rfl, rfl⟩

lemma transformLineItems_spec : ∀ {l : List PO1LineItem} {items : List ERPLineItem},
    transformLineItems l = .ok items →
    ∀ it ∈ items, it.total_price = round2 (it.quantity * it.unit_price) := by
  intro l
  induction l with
  | nil =>
    intro items h it hit
    cases h
    simp at hit
  | cons po1 rest ih =>
    intro items h it hit
    revert h
    unfold transformLineItems
    cases hq : pyFloat? po1.quantity with
    | none => intro h; simp at h
    | some q =>
      cases hu : pyFloat? po1.unit_price with
      | none => intro h; simp at h
      | some up =>
        cases hn : pyInt? po1.line_number with
        | none => intro h; simp at h
        | some ln =>
          cases ht : transformLineItems rest with
          | error e => intro h; simp at h
          | ok tail =>
            intro h
            cases h
            rcases hit with _ | ⟨_, hmem⟩
            · rfl
            · exact ih ht it hmem

lemma transform_ctt_independent (doc : ParsedEDI850) (ctt : CTTSegment) :
    transform { doc with ctt_segment := ctt } = transform doc := by
  cases doc
  rfl

lemma lineItemErrorsFrom_nil : ∀ (idx : Nat) (items : List ERPLineItem),
    (∀ it ∈ items, 0 < it.quantity ∧ 0 ≤ it.unit_price ∧ 0 ≤ it.total_price) →
    lineItemErrorsFrom idx items = [] := by
  intro idx items
  induction items generalizing idx with
  | nil => intro _; rfl
  | cons item rest ih =>
    intro h
    obtain ⟨h1, h2, h3⟩ := h item (List.mem_cons_self item rest)
    unfold lineItemErrorsFrom
    rw [if_neg (not_le.mpr h1), if_neg (not_lt.mpr h2), if_neg (not_lt.mpr h3),
        ih (idx + 1) (fun it hit => h it (List.mem_cons_of_mem _ hit))]
    rfl

/-! Claim theorems. -/

/-- C1: for every parsed document the Schema Mapper accepts, each line item
total_price equals round(quantity * unit_price, 2), the order total_amount
equals round(sum of line totals, 2), total_lines equals the length of the
mapped line-item list, and the output is identical for any value of the
source CTT totals segment (so none of these values is taken from it). -/
theorem C1_mapper_computed_totals (doc : ParsedEDI850) (p : ERPPurchaseOrder)
    (h : transform doc = .ok p) :
    (∀ it ∈ p.line_items, it.total_price = round2 (it.quantity * it.unit_price)) ∧
    p.total_amount = round2 ((p.line_items.map (fun it => it.total_price)).sum) ∧
    p.total_lines = (p.line_items.length : ℤ) ∧
    (∀ ctt : CTTSegment, transform { doc with ctt_segment := ctt } = .ok p) := by
  have hc := transform_ok_core h
  obtain ⟨items, hitems, hline, htot, hlen⟩ := transformCore_ok_fields hc
  refine ⟨?_, ?_, ?_, ?_⟩
  · intro it hit
    exact transformLineItems_spec hitems it (hline ▸ hit)
  · rw [htot, hline]; rfl
  · rw [hlen, hline]
  · intro ctt
    rw [transform_ctt_independent doc ctt]
    exact h

set_option maxRecDepth 40000 in
set_option maxHeartbeats 1000000 in
/-- Witness for C1 at a concrete two-line document. -/
theorem C1_mapper_computed_totals_witness :
    totalsPayload.total_amount =
      round2 ((totalsPayload.line_items.map (fun it => it.total_price)).sum) ∧
    totalsPayload.total_lines = (totalsPayload.line_items.length : ℤ) ∧
    transform { totalsDoc with ctt_segment := ⟨("0"), none⟩ } = .ok totalsPayload := by
  have h := C1_mapper_computed_totals totalsDoc totalsPayload (by with_unfolding_all decide)
  exact ⟨h.2.1, h.2.2.1, h.2.2.2 ⟨("0"), none⟩⟩

/-- C2: the Document Parser either returns a fully populated document or
fails naming the first missing-or-short required segment, checked in the
fixed order ISA, GS, BEG, CTT; in particular a document passing the ISA and
GS checks but missing BEG fails with an error naming BEG. -/
theorem C2_parse_fail_fast_order (s : String) :
    (okISA (splitSegments s) = false →
      parse s = .error ("Failed to parse EDI 850: ISA segment not found or incomplete")) ∧
    (okISA (splitSegments s) = true → okGS (splitSegments s) = false →
      parse s = .error ("Failed to parse EDI 850: GS segment not found or incomplete")) ∧
    (okISA (splitSegments s) = true → okGS (splitSegments s) = true →
      okBEG (splitSegments s) = false →
      parse s = .error ("Failed to parse EDI 850: BEG segment not found or incomplete")) ∧
    (okISA (splitSegments s) = true → okGS (splitSegments s) = true →
      okBEG (splitSegments s) = true → okCTT (splitSegments s) = false →
      parse s = .error ("Failed to parse EDI 850: CTT segment not found or incomplete")) ∧
    (okISA (splitSegments s) = true → okGS (splitSegments s) = true →
      okBEG (splitSegments s) = true → okCTT (splitSegments s) = true →
      ∃ d, parse s = .ok d) := by
  refine ⟨?_, ?_, ?_, ?_, ?_⟩
  · intro h1
    unfold parse
    rw [parseCore_isa_bad h1]
    rfl
  · intro h1 h2
    unfold parse
    rw [parseCore_gs_bad h1 h2]
    rfl
  · intro h1 h2 h3
    unfold parse
    rw [parseCore_beg_bad h1 h2 h3]
    rfl
  · intro h1 h2 h3 h4
    unfold parse
    rw [parseCore_ctt_bad h1 h2 h3 h4]
    rfl
  · intro h1 h2 h3 h4
    obtain ⟨d, hd⟩ := parseCore_all_ok h1 h2 h3 h4
    exact ⟨d, by unfold parse; rw [hd]⟩

set_option maxRecDepth 40000 in
set_option maxHeartbeats 1000000 in
/-- Witness for C2 at a document with valid ISA and GS but no BEG. -/
theorem C2_parse_fail_fast_order_witness :
    parse noBegDoc = .error ("Failed to parse EDI 850: BEG segment not found or incomplete") :=
  (C2_parse_fail_fast_order noBegDoc).2.2.1 (by with_unfolding_all decide)
    (by with_unfolding_all decide) (by with_unfolding_all decide)

/-- C5 counterexample: a payload with total_amount = 0 and no line items
receives two violations, not exactly one, refuting the claim as universally
stated over all payloads. -/
theorem C5_counterexample :
    zeroTotalEmptyPayload.total_amount = 0 ∧
    validateBusinessRules zeroTotalEmptyPayload =
      [("Total amount must be greater than zero"),
       ("Purchase order must contain at least one line item")] := by
  with_unfolding_all decide

/-- C5 (amended): for every payload with total_amount = 0 that satisfies all
the other business rules, the Validator returns exactly one violation, and it
references the total-amount rule. -/
theorem C5_zero_total_single_violation (p : ERPPurchaseOrder)
    (h0 : p.total_amount = 0)
    (h2 : 1 ≤ p.total_lines)
    (h3 : (p.line_items.length : ℤ) = p.total_lines)
    (h4 : ∀ it ∈ p.line_items, 0 < it.quantity ∧ 0 ≤ it.unit_price ∧ 0 ≤ it.total_price)
    (h5 : p.vendor.vendor_name ≠ ("") ∧ p.vendor.vendor_name ≠ ("Unknown Vendor"))
    (h6 : p.ship_to.location_name ≠ ("") ∧ p.ship_to.location_name ≠ ("Unknown Location"))
    (h7 : p.po_number ≠ ("") ∧ p.po_number.trim ≠ ("")) :
    validateBusinessRules p = [("Total amount must be greater than zero")] := by
  have hpo : ¬ (p.po_number = ("") ∨ p.po_number.trim = ("")) := by
    rintro (h | h)
    · exact h7.1 h
    · exact h7.2 h
  unfold validateBusinessRules
  rw [if_pos (le_of_eq h0), if_neg (by omega), if_neg (by omega),
      lineItemErrorsFrom_nil 1 p.line_items h4,
      if_neg (by rintro (h | h); exacts [h5.1 h, h5.2 h]),
      if_neg (by rintro (h | h); exacts [h6.1 h, h6.2 h]),
      if_neg hpo]
  rfl

/-- Witness for the amended C5 at a payload with one zero-price line. -/
theorem C5_zero_total_single_violation_witness :
    validateBusinessRules zeroTotalOnlyPayload = [("Total amount must be greater than zero")] :=
  C5_zero_total_single_violation zeroTotalOnlyPayload (by with_unfolding_all decide)
    (by with_unfolding_all decide) (by with_unfolding_all decide)
    (by with_unfolding_all decide) (by with_unfolding_all decide)
    (by with_unfolding_all decide) (by with_unfolding_all decide)

/-- C6: the Schema Mapper resolves the vendor from the first name/address
loop whose entity-role code is VN; when no such loop exists it returns the
sentinel vendor with id UNKNOWN and name Unknown Vendor instead of failing,
so a missing vendor loop never fails the mapping. -/
theorem C6_vendor_resolution (loops : List N1Loop) :
    extractVendor loops =
      match loops.find? (fun n1 => n1.entity_identifier == ("VN")) with
      | none => .ok ⟨("UNKNOWN"), ("Unknown Vendor")⟩
      | some v =>
        match v.identification_code with
        | some c => .ok ⟨c, v.name⟩
        | none => .error vendorIdNoneMsg :=
  extractVendor_find loops

/-- C9: when the first VN loop is present but its identification_code is
None, the Schema Mapper raises a TransformationError instead of substituting
the UNKNOWN vendor id. -/
theorem C9_vendor_none_id_raises (doc : ParsedEDI850) (v : N1Loop)
    (hfind : doc.n1_loops.find? (fun n1 => n1.entity_identifier == ("VN")) = some v)
    (hnone : v.identification_code = none) :
    transform doc = .error (("Failed to transform EDI to ERP schema: ") ++ vendorIdNoneMsg) := by
  have hv : extractVendor doc.n1_loops = .error vendorIdNoneMsg := by
    rw [extractVendor_find, hfind]
    simp [hnone]
  unfold transform transformCore
  rw [hv]

set_option maxRecDepth 40000 in
set_option maxHeartbeats 1000000 in
/-- Witness for C9: a concrete document whose only N1 has 3 elements, so the
parser sets identification_code to None, and the transform then raises. -/
theorem C9_vendor_none_id_raises_witness :
    parse vendorNoIdDoc = .ok vendorNoIdParsed ∧
    transform vendorNoIdParsed =
      .error (("Failed to transform EDI to ERP schema: ") ++ vendorIdNoneMsg) :=
  ⟨by with_unfolding_all decide,
   C9_vendor_none_id_raises vendorNoIdParsed ⟨("VN"), ("AV"), none, none⟩
     (by with_unfolding_all decide) (by with_unfolding_all decide)⟩

/-- C3: in the submit retry loop, the delay waited before attempt k (k ≥ 2)
is retryDelay * 2 ^ (k - 2), and the first successful response stops the loop
immediately, marking the submit step success with the response and the
attempt count at which it succeeded recorded. -/
theorem C3_submit_retry_backoff {R : Type} (s : String) (call : Nat → Except String R)
    (maxRetries : Nat) (retryDelay : ℚ) (d : ParsedEDI850) (p : ERPPurchaseOrder)
    (k : Nat) (resp : R)
    (hp : parse s = .ok d) (ht : transform d = .ok p)
    (hv : validateBusinessRules p = [])
    (hk1 : 1 ≤ k) (hkm : k ≤ maxRetries)
    (hfail : ∀ j, 1 ≤ j → j < k → ∃ e, call j = .error e)
    (hok : call k = .ok resp) :
    (processEdiFile s call maxRetries retryDelay).post_to_erp.status = .success ∧
    (processEdiFile s call maxRetries retryDelay).post_to_erp.data = some resp ∧
    (processEdiFile s call maxRetries retryDelay).post_to_erp.attempts = k ∧
    (processEdiFile s call maxRetries retryDelay).success = true ∧
    (processEdiFile s call maxRetries retryDelay).submitSleeps.length = k - 1 ∧
    (∀ j, 2 ≤ j → j ≤ k →
      (processEdiFile s call maxRetries retryDelay).submitSleeps.getD (j - 2) 0 =
        retryDelay * 2 ^ (j - 2)) := by
  have hretry := postToErp_success call maxRetries k retryDelay resp hk1 hkm hfail hok
  have hrec : processEdiFile s call maxRetries retryDelay =
      ⟨true, ⟨.success, some d, none⟩, ⟨.success, some p, none⟩, ⟨.success, none, none⟩,
       ⟨.success, some resp, none, k⟩, geomDelays retryDelay (k - 1)⟩ := by
    simp [processEdiFile, hp, ht, hv, hretry, initRunResult]
  rw [hrec]
  refine ⟨rfl, rfl, rfl, rfl, geomDelays_length (k - 1) retryDelay, ?_⟩
  intro j hj2 hjk
  exact geomDelays_getD (k - 1) (j - 2) retryDelay (by omega)

set_option maxRecDepth 40000 in
set_option maxHeartbeats 1000000 in
/-- Witness for C3: attempts 1 and 2 fail, attempt 3 succeeds, max 3,
initial delay 2: waits are 2 then 4, attempts is 3, run succeeds. -/
theorem C3_submit_retry_backoff_witness :
    (processEdiFile emptySkuDoc callThird 3 2).post_to_erp.status = .success ∧
    (processEdiFile emptySkuDoc callThird 3 2).post_to_erp.data = some 7 ∧
    (processEdiFile emptySkuDoc callThird 3 2).post_to_erp.attempts = 3 ∧
    (processEdiFile emptySkuDoc callThird 3 2).success = true ∧
    (processEdiFile emptySkuDoc callThird 3 2).submitSleeps.length = 2 ∧
    (processEdiFile emptySkuDoc callThird 3 2).submitSleeps.getD 0 0 = 2 * 2 ^ 0 ∧
    (processEdiFile emptySkuDoc callThird 3 2).submitSleeps.getD 1 0 = 2 * 2 ^ 1 := by
  have h := C3_submit_retry_backoff emptySkuDoc callThird 3 2 emptySkuParsed emptySkuPayload 3 7
    (by with_unfolding_all decide) (by with_unfolding_all decide) (by with_unfolding_all decide)
    (by decide) (by decide)
    (fun j hj1 hj2 => ⟨("boom ") ++ toString j, by unfold callThird; rw [if_pos hj2]⟩)
    (by decide)
  exact ⟨h.1, h.2.1, h.2.2.1, h.2.2.2.1, h.2.2.2.2.1,
    by simpa using h.2.2.2.2.2 2 (by decide) (by decide),
    by simpa using h.2.2.2.2.2 3 (by decide) (by decide)⟩

/-- C4: if every one of the configured maximum number of submission attempts
fails, the submit step is failed with the aggregate error text referencing
the last attempt's failure, the recorded attempt count equals the configured
maximum, and the overall success flag is false (earlier steps stay success). -/
theorem C4_submit_retry_exhaustion {R : Type} (s : String) (call : Nat → Except String R)
    (maxRetries : Nat) (retryDelay : ℚ) (d : ParsedEDI850) (p : ERPPurchaseOrder)
    (errs : Nat → String)
    (hp : parse s = .ok d) (ht : transform d = .ok p)
    (hv : validateBusinessRules p = [])
    (hmax : 1 ≤ maxRetries)
    (hfail : ∀ j, 1 ≤ j → j ≤ maxRetries → call j = .error (errs j)) :
    (processEdiFile s call maxRetries retryDelay).post_to_erp.status = .failed ∧
    (processEdiFile s call maxRetries retryDelay).post_to_erp.attempts = maxRetries ∧
    (processEdiFile s call maxRetries retryDelay).post_to_erp.error =
      some (("All ") ++ toString maxRetries ++ (" retry attempts failed. Last error: ") ++
        errs maxRetries) ∧
    (processEdiFile s call maxRetries retryDelay).success = false ∧
    (processEdiFile s call maxRetries retryDelay).parse.status = .success ∧
    (processEdiFile s call maxRetries retryDelay).transform.status = .success ∧
    (processEdiFile s call maxRetries retryDelay).validate.status = .success := by
  have hretry := postToErp_fail call maxRetries retryDelay errs hmax hfail
  have hrec : processEdiFile s call maxRetries retryDelay =
      ⟨false, ⟨.success, some d, none⟩, ⟨.success, some p, none⟩, ⟨.success, none, none⟩,
       ⟨.failed, none, some (exhaustMsg maxRetries (some (errs maxRetries))), maxRetries⟩,
       geomDelays retryDelay (maxRetries - 1)⟩ := by
    simp [processEdiFile, hp, ht, hv, hretry, markFirstPending, initRunResult]
  rw [hrec]
  exact ⟨rfl, rfl, rfl, rfl, rfl, rfl, rfl⟩

set_option maxRecDepth 40000 in
set_option maxHeartbeats 1000000 in
/-- Witness for C4: every attempt fails with max 3 attempts. -/
theorem C4_submit_retry_exhaustion_witness :
    (processEdiFile emptySkuDoc callDown 3 2).post_to_erp.status = .failed ∧
    (processEdiFile emptySkuDoc callDown 3 2).post_to_erp.attempts = 3 ∧
    (processEdiFile emptySkuDoc callDown 3 2).post_to_erp.error =
      some (("All ") ++ toString 3 ++ (" retry attempts failed. Last error: ") ++ downMsg 3) ∧
    (processEdiFile emptySkuDoc callDown 3 2).success = false ∧
    (processEdiFile emptySkuDoc callDown 3 2).parse.status = .success ∧
    (processEdiFile emptySkuDoc callDown 3 2).transform.status = .success ∧
    (processEdiFile emptySkuDoc callDown 3 2).validate.status = .success :=
  C4_submit_retry_exhaustion emptySkuDoc callDown 3 2 emptySkuParsed emptySkuPayload downMsg
    (by with_unfolding_all decide) (by with_unfolding_all decide) (by with_unfolding_all decide)
    (by decide) (fun j hj1 hj2 => rfl)

/-- C7: when parsing fails, the parse step is failed carrying the parser's
error text, the transform, validate and submit steps all remain pending, and
the overall success flag is false. -/
theorem C7_parse_failure_frame {R : Type} (s : String) (call : Nat → Except String R)
    (maxRetries : Nat) (retryDelay : ℚ) (e : String)
    (hp : parse s = .error e) :
    (processEdiFile s call maxRetries retryDelay).parse.status = .failed ∧
    (processEdiFile s call maxRetries retryDelay).parse.error = some e ∧
    (processEdiFile s call maxRetries retryDelay).transform.status = .pending ∧
    (processEdiFile s call maxRetries retryDelay).validate.status = .pending ∧
    (processEdiFile s call maxRetries retryDelay).post_to_erp.status = .pending ∧
    (processEdiFile s call maxRetries retryDelay).success = false := by
  have hrec : processEdiFile s call maxRetries retryDelay =
      ⟨false, ⟨.failed, none, some e⟩, ⟨.pending, none, none⟩, ⟨.pending, none, none⟩,
       ⟨.pending, none, none, 0⟩, []⟩ := by
    simp [processEdiFile, hp, initRunResult]
  rw [hrec]
  exact ⟨rfl, rfl, rfl, rfl, rfl, rfl⟩

set_option maxRecDepth 40000 in
set_option maxHeartbeats 1000000 in
/-- Witness for C7 at the document with no BEG header. -/
theorem C7_parse_failure_frame_witness :
    (processEdiFile noBegDoc (fun _ => Except.ok (0 : Nat)) 3 2).parse.status = .failed ∧
    (processEdiFile noBegDoc (fun _ => Except.ok (0 : Nat)) 3 2).parse.error =
      some ("Failed to parse EDI 850: BEG segment not found or incomplete") ∧
    (processEdiFile noBegDoc (fun _ => Except.ok (0 : Nat)) 3 2).transform.status = .pending ∧
    (processEdiFile noBegDoc (fun _ => Except.ok (0 : Nat)) 3 2).validate.status = .pending ∧
    (processEdiFile noBegDoc (fun _ => Except.ok (0 : Nat)) 3 2).post_to_erp.status = .pending ∧
    (processEdiFile noBegDoc (fun _ => Except.ok (0 : Nat)) 3 2).success = false :=
  C7_parse_failure_frame noBegDoc (fun _ => Except.ok (0 : Nat)) 3 2
    ("Failed to parse EDI 850: BEG segment not found or incomplete")
    (by with_unfolding_all decide)

/-- C8: repeatable REF, N1 and PO1 occurrences shorter than their minimum
arity (3, 3 and 7 elements) are silently omitted from the parsed lists, and
parse success is decided solely by the four required-segment checks, so
short repeatable occurrences never fail the document. -/
theorem C8_short_repeatables_skipped (s : String) :
    (isOkE (parse s) = (okISA (splitSegments s) && okGS (splitSegments s) &&
      okBEG (splitSegments s) && okCTT (splitSegments s))) ∧
    (∀ d, parse s = .ok d →
      d.ref_segments = ((splitSegments s).filter
          (fun seg => seg.head? == some ("REF") && decide (3 ≤ seg.length))).map
          (fun ref => ⟨(ref.getD 1 ("")).trim, (ref.getD 2 ("")).trim⟩) ∧
      d.n1_loops = ((splitSegments s).filter
          (fun seg => seg.head? == some ("N1") && decide (3 ≤ seg.length))).map
          (fun n1 => ⟨(n1.getD 1 ("")).trim, (n1.getD 2 ("")).trim,
            if 3 < n1.length then some ((n1.getD 3 ("")).trim) else none,
            if 4 < n1.length then some ((n1.getD 4 ("")).trim) else none⟩) ∧
      d.po1_line_items = ((splitSegments s).filter
          (fun seg => seg.head? == some ("PO1") && decide (7 ≤ seg.length))).map
          (fun po1 => ⟨(po1.getD 1 ("")).trim, (po1.getD 2 ("")).trim, (po1.getD 3 ("")).trim,
            (po1.getD 4 ("")).trim,
            if 6 < po1.length then (po1.getD 6 ("")).trim else (""),
            if 7 < po1.length then (po1.getD 7 ("")).trim else (""),
            if 9 < po1.length then some ((po1.getD 9 ("")).trim) else none⟩)) := by
  constructor
  · cases h1 : okISA (splitSegments s) with
    | false => unfold parse; rw [parseCore_isa_bad h1]; rfl
    | true =>
      cases h2 : okGS (splitSegments s) with
      | false => unfold parse; rw [parseCore_gs_bad h1 h2]; rfl
      | true =>
        cases h3 : okBEG (splitSegments s) with
        | false => unfold parse; rw [parseCore_beg_bad h1 h2 h3]; rfl
        | true =>
          cases h4 : okCTT (splitSegments s) with
          | false => unfold parse; rw [parseCore_ctt_bad h1 h2 h3 h4]; rfl
          | true =>
            obtain ⟨d, hd⟩ := parseCore_all_ok h1 h2 h3 h4
            unfold parse
            rw [hd]
            rfl
  · intro d hd
    obtain ⟨hr, hn, hp1⟩ := parseCore_ok_fields (parse_ok_core hd)
    refine ⟨?_, ?_, ?_⟩
    · rw [hr]
      exact filter_filterMap_if (fun seg => seg.head? == some ("REF"))
        (fun seg => 3 ≤ seg.length) _ (splitSegments s)
    · rw [hn]
      exact filter_filterMap_if (fun seg => seg.head? == some ("N1"))
        (fun seg => 3 ≤ seg.length) _ (splitSegments s)
    · rw [hp1]
      exact filter_filterMap_if (fun seg => seg.head? == some ("PO1"))
        (fun seg => 7 ≤ seg.length) _ (splitSegments s)

set_option maxRecDepth 40000 in
set_option maxHeartbeats 1000000 in
/-- Witness for C8: a document with one short REF, one short N1 and one short
PO1 still parses, and its parsed lists contain only the well-formed
occurrences. -/
theorem C8_short_repeatables_skipped_witness :
    parse shortRepeatDoc = .ok shortRepeatParsed ∧
    shortRepeatParsed.ref_segments = ((splitSegments shortRepeatDoc).filter
        (fun seg => seg.head? == some ("REF") && decide (3 ≤ seg.length))).map
        (fun ref => ⟨(ref.getD 1 ("")).trim, (ref.getD 2 ("")).trim⟩) ∧
    shortRepeatParsed.n1_loops = ((splitSegments shortRepeatDoc).filter
        (fun seg => seg.head? == some ("N1") && decide (3 ≤ seg.length))).map
        (fun n1 => ⟨(n1.getD 1 ("")).trim, (n1.getD 2 ("")).trim,
          if 3 < n1.length then some ((n1.getD 3 ("")).trim) else none,
          if 4 < n1.length then some ((n1.getD 4 ("")).trim) else none⟩) ∧
    shortRepeatParsed.po1_line_items = ((splitSegments shortRepeatDoc).filter
        (fun seg => seg.head? == some ("PO1") && decide (7 ≤ seg.length))).map
        (fun po1 => ⟨(po1.getD 1 ("")).trim, (po1.getD 2 ("")).trim, (po1.getD 3 ("")).trim,
          (po1.getD 4 ("")).trim,
          if 6 < po1.length then (po1.getD 6 ("")).trim else (""),
          if 7 < po1.length then (po1.getD 7 ("")).trim else (""),
          if 9 < po1.length then some ((po1.getD 9 ("")).trim) else none⟩) := by
  have hp : parse shortRepeatDoc = .ok shortRepeatParsed := by with_unfolding_all decide
  have h := (C8_short_repeatables_skipped shortRepeatDoc).2 shortRepeatParsed hp
  exact ⟨hp, h.1, h.2.1, h.2.2⟩

set_option maxRecDepth 40000 in
set_option maxHeartbeats 1000000 in
/-- C10: a PO1 segment with exactly 7 elements is accepted and yields a line
item with empty product id; the mapper passes the empty SKU through, no
business rule rejects it, and the pipeline reaches (and here completes) the
submit stage. -/
theorem C10_empty_sku_reaches_submit :
    parse emptySkuDoc = .ok emptySkuParsed ∧
    emptySkuParsed.po1_line_items.map (fun it => it.product_id) = [("")] ∧
    transform emptySkuParsed = .ok emptySkuPayload ∧
    emptySkuPayload.line_items.map (fun it => it.sku) = [("")] ∧
    validateBusinessRules emptySkuPayload = [] ∧
    (processEdiFile emptySkuDoc (fun _ => Except.ok (0 : Nat)) 3 2).post_to_erp.status = .success ∧
    (processEdiFile emptySkuDoc (fun _ => Except.ok (0 : Nat)) 3 2).post_to_erp.attempts = 1 ∧
    (processEdiFile emptySkuDoc (fun _ => Except.ok (0 : Nat)) 3 2).success = true := by
  have hrec : processEdiFile emptySkuDoc (fun _ => Except.ok (0 : Nat)) 3 2 =
      ⟨true, ⟨.success, some emptySkuParsed, none⟩, ⟨.success, some emptySkuPayload, none⟩,
       ⟨.success, none, none⟩, ⟨.success, some 0, none, 1⟩, []⟩ := by
    with_unfolding_all decide
  refine ⟨by with_unfolding_all decide, by decide, by with_unfolding_all decide, by decide,
    by with_unfolding_all decide, ?_, ?_, ?_⟩ <;> rw [hrec]

end Edi850Demo
